import Mathlib

/-!
Verification development for the hardcover-ulauncher extension
(src/api.py and src/main.py), shallowly embedded in Lean 4.

JSON/Python values are modelled by `PyVal`; Python runtime errors by
`PErr`; HTTP responses (including connection failures) by `HttpResp`.
Network calls issued by the code are recorded explicitly as `NetCall`
values so that "no network call" and "the mutation is issued" are
statable.  Python dictionary/`in`/indexing/truthiness semantics are
embedded by the `py*` helper functions below.
-/

namespace Hardcover

/-- Model of a Python/JSON value as it appears in the extension:
`None`, booleans, integers, strings, lists and string-keyed dicts. -/
inductive PyVal where
  | none : PyVal
  | bool : Bool → PyVal
  | int : Int → PyVal
  | str : String → PyVal
  | list : List PyVal → PyVal
  | dict : List (String × PyVal) → PyVal
deriving Repr

/-- Python exceptions that the embedded code can raise. -/
inductive PErr where
  | attributeError
  | typeError
  | keyError
  | indexError
  | valueError
  | httpError (code : Nat)
  | connectionError (msg : String)
  | appError (v : PyVal)
deriving Repr

/-- Python truthiness (`bool(x)`). -/
def truthy : PyVal → Bool
  | .none => false
  | .bool b => b
  | .int i => i ≠ 0
  | .str s => s ≠ ""
  | .list l => ¬ l.isEmpty
  | .dict d => ¬ d.isEmpty

/-- First binding of a key in an association list (Python dict lookup). -/
def pyLookup (kvs : List (String × PyVal)) (k : String) : Option PyVal :=
  match kvs with
  | [] => Option.none
  | (k1, v) :: rest => if k1 = k then Option.some v else pyLookup rest k

/-- Python `x.get(key, default)`: raises `AttributeError` when `x` is
not a dict. -/
def pyGetD (v : PyVal) (k : String) (d : PyVal) : Except PErr PyVal :=
  match v with
  | .dict kvs => .ok ((pyLookup kvs k).getD d)
  | _ => .error .attributeError

/-- Python `x[key]` subscription with a string key. -/
def pySubscript (v : PyVal) (k : String) : Except PErr PyVal :=
  match v with
  | .dict kvs =>
      match pyLookup kvs k with
      | Option.some r => .ok r
      | Option.none => .error .keyError
  | _ => .error .typeError

/-- Python `x[i]` with a nonnegative integer index. -/
def pyIndex (v : PyVal) (i : Nat) : Except PErr PyVal :=
  match v with
  | .list l =>
      match l.get? i with
      | Option.some r => .ok r
      | Option.none => .error .indexError
  | .str s =>
      match s.toList.get? i with
      | Option.some c => .ok (.str (String.singleton c))
      | Option.none => .error .indexError
  | .dict _ => .error .keyError
  | _ => .error .typeError

/-- Python iteration `for x in v`: lists yield elements, strings yield
one-character strings, dicts yield their keys; other values raise. -/
def pyIter (v : PyVal) : Except PErr (List PyVal) :=
  match v with
  | .list l => .ok l
  | .str s => .ok (s.toList.map (fun c => .str (String.singleton c)))
  | .dict kvs => .ok (kvs.map (fun kv => .str kv.1))
  | _ => .error .typeError

/-- `v == s` for a string literal `s` (Python equality against a str). -/
def strEqB (v : PyVal) (s : String) : Bool :=
  match v with
  | .str t => t = s
  | _ => false

/-- Boolean infix test on character lists. -/
def isInfixB (needle : List Char) : List Char → Bool
  | [] => needle.isEmpty
  | c :: t => needle.isPrefixOf (c :: t) || isInfixB needle t

/-- Python `key in v` for a string key: dict key test, list membership,
substring test on strings; raises `TypeError` otherwise. -/
def pyIn (k : String) (v : PyVal) : Except PErr Bool :=
  match v with
  | .dict kvs => .ok (kvs.any (fun kv => kv.1 = k))
  | .list l => .ok (l.any (fun x => strEqB x k))
  | .str s => .ok (isInfixB k.toList s.toList)
  | _ => .error .typeError

/-- Characters stripped by Python `str.strip()` with no argument. -/
def pyWs : List Char := [' ', '\t', '\n', '\x0d', '\x0b', '\x0c']

/-- Strip every character of `set` from both ends of a character list. -/
def stripCharsList (set : List Char) (l : List Char) : List Char :=
  ((l.dropWhile (fun c => set.contains c)).reverse.dropWhile
      (fun c => set.contains c)).reverse

/-- Python `s.strip(chars)`. -/
def pythonStripChars (s : String) (set : List Char) : String :=
  ⟨stripCharsList set s.toList⟩

/-- Python `s.strip()` (whitespace). -/
def pythonStrip (s : String) : String := pythonStripChars s pyWs

/-- One fuelled step of Python `s.replace(pat, rep)` on character
lists: replaces non-overlapping occurrences left to right. -/
def replaceFuel (pat rep : List Char) : Nat → List Char → List Char
  | 0, _ => []
  | _ + 1, [] => []
  | fuel + 1, c :: rest =>
      if pat ≠ [] ∧ pat.isPrefixOf (c :: rest) then
        rep ++ replaceFuel pat rep fuel ((c :: rest).drop pat.length)
      else
        c :: replaceFuel pat rep fuel rest

/-- Python `s.replace(pat, rep)` (for a nonempty pattern). -/
def pyReplace (s pat rep : String) : String :=
  ⟨replaceFuel pat.toList rep.toList (s.toList.length + 1) s.toList⟩

/-- Digits of a character list as a natural number, when all characters
are decimal digits and the list is nonempty. -/
def digitsToNat : List Char → Option Nat
  | [] => Option.none
  | [c] => if c.isDigit then Option.some (c.toNat - ('0').toNat) else Option.none
  | c :: rest =>
      if c.isDigit then
        (digitsToNat rest).map
          (fun n => (c.toNat - ('0').toNat) * 10 ^ rest.length + n)
      else Option.none

/-- Python `int(s)` on a string: optional surrounding whitespace, an
optional sign, then one or more decimal digits; `None` models
`ValueError`. -/
def pyIntOpt (s : String) : Option Int :=
  let cs := (pythonStrip s).toList
  match cs with
  | '+' :: ds => (digitsToNat ds).map (fun n => (n : Int))
  | '-' :: ds => (digitsToNat ds).map (fun n => -(n : Int))
  | ds => (digitsToNat ds).map (fun n => (n : Int))

/-- Python `int(v)` on a value: ints and bools convert, strings parse
(`ValueError` on failure), everything else raises `TypeError`. -/
def pyToInt (v : PyVal) : Except PErr Int :=
  match v with
  | .int i => .ok i
  | .bool b => .ok (if b then 1 else 0)
  | .str s =>
      match pyIntOpt s with
      | Option.some i => .ok i
      | Option.none => .error .valueError
  | _ => .error .typeError

mutual

/-- Python `repr` of a value (single-quoted strings). -/
def pyRepr : PyVal → String
  | .none => "None"
  | .bool true => "True"
  | .bool false => "False"
  | .int i => toString i
  | .str s => "\x27" ++ s ++ "\x27"
  | .list l => "[" ++ String.intercalate (", ") (pyReprList l) ++ "]"
  | .dict kvs =>
      "\x7b" ++ String.intercalate (", ") (pyReprKVs kvs) ++ "\x7d"

/-- `repr` of each element of a list. -/
def pyReprList : List PyVal → List String
  | [] => []
  | v :: rest => pyRepr v :: pyReprList rest

/-- `repr` of each `key: value` binding of a dict. -/
def pyReprKVs : List (String × PyVal) → List String
  | [] => []
  | (k, v) :: rest => ("\x27" ++ k ++ "\x27: " ++ pyRepr v) :: pyReprKVs rest

end

/-- Python `str` of a value. -/
def pyStr : PyVal → String
  | .str s => s
  | v => pyRepr v

/-- Python `sep.join(items)`: every element must be a string. -/
def pyJoin (sep : String) : List PyVal → Except PErr String
  | [] => .ok ""
  | [.str s] => .ok s
  | .str s :: rest => (pyJoin sep rest).map (fun r => s ++ sep ++ r)
  | _ => .error .typeError

/-- Python `f"...:.1f"` formatting of a value with one decimal place
(only integers and booleans format; floats do not occur in this
embedding). -/
def formatFixed1 (v : PyVal) : Except PErr String :=
  match v with
  | .int i => .ok (toString i ++ ".0")
  | .bool b => .ok (if b then "1.0" else "0.0")
  | .str _ => .error .valueError
  | _ => .error .typeError

/-- Python `s.split(None, 1)`: leading whitespace skipped; if nothing
remains the result is empty, otherwise the first whitespace-free token
and, when anything follows the delimiting whitespace run, the rest of
the string. -/
def splitNone1 (s : String) : List String :=
  let cs := s.toList.dropWhile (fun c => pyWs.contains c)
  match cs with
  | [] => []
  | _ =>
      let tok := cs.takeWhile (fun c => ¬ pyWs.contains c)
      let rest := (cs.dropWhile (fun c => ¬ pyWs.contains c)).dropWhile
        (fun c => pyWs.contains c)
      if rest.isEmpty then [⟨tok⟩] else [⟨tok⟩, ⟨rest⟩]

/-- Boolean substring test. -/
def containsStr (hay needle : String) : Bool :=
  isInfixB needle.toList hay.toList

/-- ASCII lowercase of a character. -/
def charLower (c : Char) : Char :=
  if 65 ≤ c.toNat ∧ c.toNat ≤ 90 then Char.ofNat (c.toNat + 32) else c

/-- Python `s.lower()` (over the ASCII range, which covers every
string the embedded code lowercases). -/
def pyLower (s : String) : String := ⟨s.toList.map charLower⟩

/-- An HTTP exchange outcome as seen by the client: a status code with
a parsed JSON body, or a connection-level failure raised by the
`requests` library. -/
inductive HttpResp where
  | resp (status : Nat) (body : PyVal)
  | netError (msg : String)
deriving Repr

/-- A record of one outbound network call made by the embedded code. -/
inductive NetCall where
  | search (q : String) (queryType : String) (perPage : Int)
  | userInfo
  | lookup (userId bookId : Int)
  | insert (bookId : Int) (statusId : Int)
deriving Repr, DecidableEq

/-- Rendering of an embedded Python exception by `str(e)`. -/
def pErrStr : PErr → String
  | .attributeError => "AttributeError"
  | .typeError => "TypeError"
  | .keyError => "KeyError"
  | .indexError => "IndexError"
  | .valueError => "ValueError"
  | .httpError code => "HTTP error " ++ toString code
  | .connectionError m => m
  | .appError v => pyStr v

/-! ### src/api.py -/

/-- `api.py` `HardcoverAPI.__init__`: the stored credential is
`api_token.replace("Bearer ", "").strip()`. -/
def apiSanitize (t : String) : String :=
  pythonStrip (pyReplace t ("Bearer ") "")

/-- The Authorization header value attached by `api.py` (always
present). -/
def apiAuthHeader (t : String) : String :=
  "Bearer " ++ apiSanitize t

/-- `api.py` `HardcoverAPI._run_query` from the response on: raises for
non-2xx status (`raise_for_status`), raises an exception carrying
`json_resp["errors"][0]["message"]` when an errors field is present,
otherwise returns `json_resp.get("data", {})`. -/
def apiRunQuery (r : HttpResp) : Except PErr PyVal :=
  match r with
  | .netError m => .error (.connectionError m)
  | .resp s body =>
      if 400 ≤ s ∧ s < 600 then .error (.httpError s)
      else do
        let hasErr ← pyIn ("errors") body
        if hasErr then do
          let errs ← pySubscript body ("errors")
          let e0 ← pyIndex errs 0
          let msg ← pySubscript e0 ("message")
          .error (.appError msg)
        else
          pyGetD body ("data") (.dict [])

/-! ### src/main.py: HardcoverAPI -/

/-- `main.py` `HardcoverAPI.__init__`: the stored credential is
`api_token.strip().strip('"').strip("'")` (empty input stays empty). -/
def mainSanitize (t : String) : String :=
  if t = "" then ""
  else pythonStripChars (pythonStripChars (pythonStrip t) ['"']) ['\x27']

/-- The Authorization header attached by `main.py`: present only when
the sanitized credential is nonempty. -/
def mainAuthHeader (t : String) : Option String :=
  let tok := mainSanitize t
  if tok ≠ "" then Option.some ("Bearer " ++ tok) else Option.none

/-- Body handling of `main.py` `HardcoverAPI.get_user_info` inside its
`try` block. -/
def getUserInfoBody (body : PyVal) : Except PErr (Option PyVal) := do
  let hasErr ← pyIn ("errors") body
  if hasErr then pure Option.none
  else do
    let d ← pyGetD body ("data") (.dict [])
    let me ← pyGetD d ("me") (.dict [])
    pure (Option.some me)

/-- `main.py` `HardcoverAPI.get_user_info`: `None` on non-2xx status,
GraphQL errors, or any raised exception. -/
def getUserInfo (r : HttpResp) : Option PyVal :=
  match r with
  | .netError _ => Option.none
  | .resp s body =>
      if s ≠ 200 then Option.none
      else
        match getUserInfoBody body with
        | .ok res => res
        | .error _ => Option.none

/-- Body handling of `main.py` `HardcoverAPI.check_book_in_library`
inside its `try` block. -/
def checkBookBody (body : PyVal) : Except PErr (Option PyVal) := do
  let hasErr ← pyIn ("errors") body
  if hasErr then pure Option.none
  else do
    let d ← pyGetD body ("data") (.dict [])
    let ub ← pyGetD d ("user_books") (.list [])
    if truthy ub then do
      let x ← pyIndex ub 0
      pure (Option.some x)
    else pure Option.none

/-- `main.py` `HardcoverAPI.check_book_in_library`: returns the first
matching `user_books` entry; `None` on non-2xx status, GraphQL errors,
an empty result, or any raised exception. -/
def checkBookInLibrary (r : HttpResp) : Option PyVal :=
  match r with
  | .netError _ => Option.none
  | .resp s body =>
      if s ≠ 200 then Option.none
      else
        match checkBookBody body with
        | .ok res => res
        | .error _ => Option.none

/-- Body handling of `main.py` `HardcoverAPI.add_book_to_library`
inside its `try` block, after a 200 status. -/
def addBookBody (body : PyVal) : Except PErr PyVal := do
  let hasErr ← pyIn ("errors") body
  if hasErr then do
    let errs ← pySubscript body ("errors")
    pure (.dict [("success", .bool false), ("error", .str (pyStr errs))])
  else do
    let d ← pyGetD body ("data") (.dict [])
    let result ← pyGetD d ("insert_user_book") (.dict [])
    if truthy result then
      pure (.dict [("success", .bool true), ("data", result)])
    else
      pure (.dict [("success", .bool false), ("error", .str ("No data returned"))])

/-- `main.py` `HardcoverAPI.add_book_to_library`: the returned result
dict (`success`/`error`/`data`). -/
def addBook (r : HttpResp) : PyVal :=
  match r with
  | .netError m => .dict [("success", .bool false), ("error", .str m)]
  | .resp s body =>
      if s ≠ 200 then
        .dict [("success", .bool false),
               ("error", .str ("HTTP " ++ toString s))]
      else
        match addBookBody body with
        | .ok res => res
        | .error e =>
            .dict [("success", .bool false), ("error", .str (pErrStr e))]

/-- Per-hit document extraction loop of `main.py`
`HardcoverAPI.search`: keeps every truthy `hit.get("document", {})`. -/
def extractDocs : List PyVal → Except PErr (List PyVal)
  | [] => .ok []
  | h :: t => do
      let doc ← pyGetD h ("document") (.dict [])
      let rest ← extractDocs t
      pure (if truthy doc then doc :: rest else rest)

/-- Body handling of `main.py` `HardcoverAPI.search` inside its `try`
block, after a 200 status: returns `[]` when an errors field is
present, otherwise drills into `data.search.results.hits` and extracts
the documents. -/
def searchBody (body : PyVal) : Except PErr (List PyVal) := do
  let hasErr ← pyIn ("errors") body
  if hasErr then pure []
  else do
    let d ← pyGetD body ("data") (.dict [])
    let sd ← pyGetD d ("search") (.dict [])
    let ro ← pyGetD sd ("results") (.dict [])
    let hits ← pyGetD ro ("hits") (.list [])
    let hl ← pyIter hits
    extractDocs hl

/-- `main.py` `HardcoverAPI.search`: `[]` on non-2xx status, GraphQL
errors, or any raised exception. -/
def mainSearch (r : HttpResp) : List PyVal :=
  match r with
  | .netError _ => []
  | .resp s body =>
      if s ≠ 200 then []
      else
        match searchBody body with
        | .ok res => res
        | .error _ => []

/-! ### src/main.py: result presenter -/

/-- `HARDCOVER_BASE_URL`. -/
def baseUrl : String := "https://hardcover.app"

/-- The `on_enter` action of a display item. -/
inductive EnterAction where
  | openUrl (url : String)
  | hideWindow
  | copyText (text : String)
deriving Repr

/-- The `ExtensionCustomAction` payload attached by `create_book_item`
as `on_alt_enter`. -/
structure ActionPayload where
  action : String
  bookId : Int
  bookTitle : PyVal
  userId : String
deriving Repr

/-- The event data dict the host hands back to
`ItemEnterEventListener` for an attached payload. -/
def ActionPayload.toPy (p : ActionPayload) : PyVal :=
  .dict [("action", .str p.action), ("book_id", .int p.bookId),
         ("book_title", p.bookTitle), ("user_id", .str p.userId)]

/-- An `ExtensionResultItem`: its name (the raw value the code passes),
description, primary action and optional alternative action. -/
structure Item where
  name : PyVal
  description : String
  onEnter : EnterAction
  onAltEnter : Option ActionPayload
deriving Repr

/-- `create_book_item`: the converted book id —
`book.get("id")`, converted by `int(...)` with `ValueError`/`TypeError`
mapped to `None`. -/
def bookIdOf (book : PyVal) : Except PErr (Option Int) := do
  let v ← pyGetD book ("id") .none
  match v with
  | .none => pure Option.none
  | w =>
      match pyToInt w with
      | .ok i => pure (Option.some i)
      | .error _ => pure Option.none

/-- Truthiness of the converted book id (`if ... book_id:`). -/
def optIntTruthy (o : Option Int) : Bool :=
  match o with
  | Option.some i => i ≠ 0
  | Option.none => false

/-- The library check performed inside `create_book_item`'s `try`
block: `int(user_id)` (an unparseable id raises, caught, leaving the
book treated as not in the library and no request made), then
`check_book_in_library`.  Returns the lookup result and the network
calls made. -/
def libraryLookup (userId : String) (bid : Int)
    (stub : Int → Int → HttpResp) : Option PyVal × List NetCall :=
  match pyIntOpt userId with
  | Option.none => (Option.none, [])
  | Option.some uid => (checkBookInLibrary (stub uid bid), [.lookup uid bid])

/-- `create_book_item`: `", ".join(author_names) if
isinstance(author_names, list) else ""`. -/
def authorsStrOf (authorNames : PyVal) : Except PErr String :=
  match authorNames with
  | .list l => pyJoin (", ") l
  | _ => pure ""

/-- `create_book_item`: the `⭐`-rating part of the description,
formatted only when the rating field is truthy. -/
def ratingPartOf (rating : PyVal) : Except PErr (List String) :=
  if truthy rating then
    (formatFixed1 rating).map (fun f => ["⭐ " ++ f])
  else pure []

/-- `main.py` `create_book_item`. -/
def createBookItem (book : PyVal) (userId : String)
    (stub : Int → Int → HttpResp) : Except PErr (Item × List NetCall) := do
  let title ← pyGetD book ("title") (.str "Unknown Title")
  let slug ← pyGetD book ("slug") (.str "")
  let bookId ← bookIdOf book
  let authorNames ← pyGetD book ("author_names") (.list [])
  let authorsStr ← authorsStrOf authorNames
  let releaseYear ← pyGetD book ("release_year") (.str "")
  let rating ← pyGetD book ("rating") (.str "")
  let usersCount ← pyGetD book ("users_count") (.int 0)
  let ratingPart ← ratingPartOf rating
  let descParts : List String :=
    (if authorsStr ≠ "" then ["By " ++ authorsStr] else []) ++
    (if truthy releaseYear then [pyStr releaseYear] else []) ++
    ratingPart ++
    (if truthy usersCount then ["👥 " ++ pyStr usersCount] else [])
  let description0 :=
    if descParts.isEmpty then "Book"
    else String.intercalate (" | ") descParts
  let lib :=
    if userId ≠ "" ∧ optIntTruthy bookId then
      libraryLookup userId (bookId.getD 0) stub
    else (Option.none, [])
  let calls := lib.2
  let inLibrary := lib.1.isSome
  let description1 :=
    if inLibrary then "📚 In Library | " ++ description0 else description0
  let attach := userId ≠ "" ∧ ¬ inLibrary ∧ optIntTruthy bookId
  let altEnter : Option ActionPayload :=
    if attach then
      Option.some ⟨"add_to_library", bookId.getD 0, title, userId⟩
    else Option.none
  let description2 :=
    if attach then description1 ++ " | Alt+Enter to add" else description1
  pure (⟨title, description2,
         .openUrl (baseUrl ++ "/books/" ++ pyStr slug), altEnter⟩, calls)

/-- `create_author_item`: the description, with a preview of up to
three book titles when the books field is a nonempty list. -/
def authorDescription (booksCount books : PyVal) : Except PErr String :=
  match books with
  | .list l =>
      if ¬ l.isEmpty then
        (pyJoin (", ") (l.take 3)).map (fun preview0 =>
          let preview := if l.length > 3 then preview0 ++ "..." else preview0
          "📚 " ++ pyStr booksCount ++ " books | " ++ preview)
      else pure ("📚 " ++ pyStr booksCount ++ " books")
  | _ => pure ("📚 " ++ pyStr booksCount ++ " books")

/-- `main.py` `create_author_item`. -/
def createAuthorItem (author : PyVal) : Except PErr Item := do
  let name ← pyGetD author ("name") (.str "Unknown Author")
  let slug ← pyGetD author ("slug") (.str "")
  let booksCount ← pyGetD author ("books_count") (.int 0)
  let books ← pyGetD author ("books") (.list [])
  let description ← authorDescription booksCount books
  pure ⟨name, description,
        .openUrl (baseUrl ++ "/authors/" ++ pyStr slug), Option.none⟩

/-- `main.py` `create_series_item`. -/
def createSeriesItem (series : PyVal) : Except PErr Item := do
  let name ← pyGetD series ("name") (.str "Unknown Series")
  let slug ← pyGetD series ("slug") (.str "")
  let authorName ← pyGetD series ("author_name") (.str "")
  let booksCount ← pyGetD series ("books_count") (.int 0)
  let descParts : List String :=
    (if truthy authorName then ["By " ++ pyStr authorName] else []) ++
    (if truthy booksCount then [pyStr booksCount ++ " books"] else [])
  let description :=
    if descParts.isEmpty then "Series"
    else String.intercalate (" | ") descParts
  pure ⟨name, description,
        .openUrl (baseUrl ++ "/series/" ++ pyStr slug), Option.none⟩

/-- `create_list_item`: `user.get("username", "Unknown") if
isinstance(user, dict) else "Unknown"`. -/
def usernameOf (user : PyVal) : Except PErr PyVal :=
  match user with
  | .dict _ => pyGetD user ("username") (.str "Unknown")
  | _ => pure (.str "Unknown")

/-- `main.py` `create_list_item`. -/
def createListItem (listData : PyVal) : Except PErr Item := do
  let name ← pyGetD listData ("name") (.str "Untitled List")
  let slug ← pyGetD listData ("slug") (.str "")
  let booksCount ← pyGetD listData ("books_count") (.int 0)
  let user ← pyGetD listData ("user") (.dict [])
  let username ← usernameOf user
  let description :=
    if truthy booksCount then
      "By @" ++ pyStr username ++ " | " ++ pyStr booksCount ++ " books"
    else "By @" ++ pyStr username
  pure ⟨name, description,
        .openUrl (baseUrl ++ "/lists/" ++ pyStr slug), Option.none⟩

/-! ### src/main.py: KeywordQueryEventListener -/

/-- The preference strings the listener reads (after the
`preferences.get` defaults have been applied). -/
structure Prefs where
  apiToken : String
  userId : String
  resultsLimit : String
deriving Repr

/-- Stubbed network responses for one keyword-query invocation. -/
structure Stubs where
  userInfo : HttpResp
  search : HttpResp
  lookup : Int → Int → HttpResp

/-- The single item returned when no API token is configured. -/
def apiTokenRequiredItem : Item :=
  ⟨.str "API Token Required",
   "Please set your Hardcover API token in extension preferences",
   .hideWindow, Option.none⟩

/-- The fallback item appended when the search produced no items. -/
def noResultsItem (searchQuery : String) : Item :=
  ⟨.str "No results found",
   "No results for \"" ++ searchQuery ++ "\"",
   .hideWindow, Option.none⟩

/-- The static help items shown for an empty query, with the
`Add to Library` hint inserted at position 1 when a user id is
configured. -/
def helpItems (userId : String) : List Item :=
  ⟨.str "Search Hardcover",
   "Type to search for books, authors, series, or lists",
   .hideWindow, Option.none⟩ ::
  (if userId ≠ "" then
    [⟨.str "Add to Library",
      "Alt+Enter on any book to add to Want to Read",
      .hideWindow, Option.none⟩]
   else []) ++
  [⟨.str "Get User Info", "hc me - Get your user ID",
    .hideWindow, Option.none⟩,
   ⟨.str "Books (default)", "hc <book name>", .hideWindow, Option.none⟩,
   ⟨.str "Authors", "hc author <name>", .hideWindow, Option.none⟩,
   ⟨.str "Series", "hc series <name>", .hideWindow, Option.none⟩]

/-- Command parsing of the keyword listener, given
`parts = query.split(None, 1)` destructured as `cmd :: rest`: yields
the query type and the effective search query. -/
def parseCommand (query cmd : String) (rest : List String) :
    String × String :=
  let command := pyLower cmd
  let sq0 := match rest with
    | r :: _ => r
    | [] => query
  if (command = "author" ∨ command = "authors") ∧ rest ≠ [] then
    ("Author", sq0)
  else if command = "series" ∧ rest ≠ [] then ("Series", sq0)
  else if (command = "list" ∨ command = "lists") ∧ rest ≠ [] then
    ("List", sq0)
  else
    ("Book",
      if command = "author" ∨ command = "authors" ∨ command = "series" ∨
          command = "list" ∨ command = "lists" then sq0
      else query)

/-- The per-result item construction loop of the keyword listener. -/
def buildItems (queryType : String) (results : List PyVal)
    (userId : String) (stub : Int → Int → HttpResp) :
    Except PErr (List Item × List NetCall) :=
  match results with
  | [] => .ok ([], [])
  | r :: rs => do
      let (item, cs) ←
        if queryType = "Book" then createBookItem r userId stub
        else if queryType = "Author" then do
          let i ← createAuthorItem r
          pure (i, [])
        else if queryType = "Series" then do
          let i ← createSeriesItem r
          pure (i, [])
        else if queryType = "List" then do
          let i ← createListItem r
          pure (i, [])
        else pure (⟨.none, "", .hideWindow, Option.none⟩, [])
      let (items, cs2) ← buildItems queryType rs userId stub
      pure (item :: items, cs ++ cs2)

/-- `main.py` `KeywordQueryEventListener.on_event`, with network
exchanges stubbed by `st`: returns the rendered item list and the
network calls made, or the uncaught Python exception. -/
def onEvent (query : String) (p : Prefs) (st : Stubs) :
    Except PErr (List Item × List NetCall) := do
  if p.apiToken = "" ∨ pythonStrip p.apiToken = "" then
    pure ([apiTokenRequiredItem], [])
  else
    let limit : Int := (pyIntOpt p.resultsLimit).getD 10
    if pyLower query = "me" ∨ pyLower query = "whoami" then
      match getUserInfo st.userInfo with
      | Option.some ui =>
          if truthy ui then do
            let fallback ← pyGetD ui ("username") (.str "User")
            let helloName ← pyGetD ui ("name") fallback
            let uid ← pyGetD ui ("id") .none
            let uname ← pyGetD ui ("username") .none
            pure ([⟨.str ("Hello, " ++ pyStr helloName ++ "!"),
                   "User ID: " ++ pyStr uid ++ " | Username: @" ++
                     pyStr uname ++
                     " | Copy your User ID and add it to preferences",
                   .copyText (pyStr uid), Option.none⟩],
                  [NetCall.userInfo])
          else
            pure ([⟨.str "Error getting user info", "Check your API token",
                   .hideWindow, Option.none⟩], [NetCall.userInfo])
      | Option.none =>
          pure ([⟨.str "Error getting user info", "Check your API token",
                 .hideWindow, Option.none⟩], [NetCall.userInfo])
    else if query = "" then
      pure (helpItems p.userId, [])
    else
      match splitNone1 query with
      | [] => .error .indexError
      | cmd :: rest =>
          let (queryType, searchQuery) := parseCommand query cmd rest
          let results := mainSearch st.search
          let (items0, cs) ← buildItems queryType results p.userId st.lookup
          let items :=
            if items0.isEmpty then [noResultsItem searchQuery] else items0
          pure (items, NetCall.search searchQuery queryType limit :: cs)

/-! ### src/main.py: ItemEnterEventListener -/

/-- Stubbed network responses for one item-enter invocation. -/
structure EnterStubs where
  lookup : HttpResp
  add : HttpResp

/-- The outcome of `ItemEnterEventListener.on_event`. -/
inductive EnterOutcome where
  | rendered (items : List Item)
  | hidden
deriving Repr

/-- `status_names.get(v, "Unknown")` with the six integer keys (a
Python `True` key also hits the `1` entry). -/
def statusName (v : PyVal) : String :=
  match v with
  | .int i =>
      if i = 1 then "Want to Read"
      else if i = 2 then "Currently Reading"
      else if i = 3 then "Read"
      else if i = 4 then "Paused"
      else if i = 5 then "Did Not Finish"
      else if i = 6 then "Ignored"
      else "Unknown"
  | .bool true => "Want to Read"
  | _ => "Unknown"

/-- The single error item for an unconvertible book or user id. -/
def invalidIdItem : Item :=
  ⟨.str "Error", "Invalid book or user ID", .hideWindow, Option.none⟩

/-- The item reporting that the book is already in the library. -/
def alreadyInLibraryItem (title status : String) : Item :=
  ⟨.str "Book Already in Library",
   "\"" ++ title ++ "\" is already marked as \"" ++ status ++ "\"",
   .hideWindow, Option.none⟩

/-- The item reporting a successful add. -/
def addedItem (title : String) : Item :=
  ⟨.str "✓ Added to Want to Read",
   "\"" ++ title ++ "\" has been added to your library",
   .hideWindow, Option.none⟩

/-- The item reporting a failed add. -/
def addFailedItem (err : String) : Item :=
  ⟨.str "Error Adding Book", "Error: " ++ err, .hideWindow, Option.none⟩

/-- The add-book tail of `ItemEnterEventListener.on_event`: issues the
insert mutation with `status_id=1` and renders its outcome. -/
def addFlow (bid : Int) (bookTitle : PyVal) (calls0 : List NetCall)
    (add : HttpResp) : Except PErr (EnterOutcome × List NetCall) := do
  let result := addBook add
  let calls := calls0 ++ [NetCall.insert bid 1]
  let s ← pyGetD result ("success") .none
  if truthy s then
    pure (.rendered [addedItem (pyStr bookTitle)], calls)
  else do
    let e ← pyGetD result ("error") (.str "Unknown error")
    pure (.rendered [addFailedItem (pyStr e)], calls)

/-- `main.py` `ItemEnterEventListener.on_event`, with network
exchanges stubbed by `st`. -/
def itemEnter (data : PyVal) (st : EnterStubs) :
    Except PErr (EnterOutcome × List NetCall) := do
  let action ← pyGetD data ("action") .none
  if strEqB action "add_to_library" then do
    let bookId0 ← pyGetD data ("book_id") .none
    let bookTitle ← pyGetD data ("book_title") .none
    let userId0 ← pyGetD data ("user_id") .none
    match pyToInt bookId0 with
    | .error _ => pure (.rendered [invalidIdItem], [])
    | .ok bid =>
        match pyToInt userId0 with
        | .error _ => pure (.rendered [invalidIdItem], [])
        | .ok uid =>
            let existing := checkBookInLibrary st.lookup
            let calls0 := [NetCall.lookup uid bid]
            match existing with
            | Option.some v =>
                if truthy v then do
                  let sid ← pyGetD v ("status_id") .none
                  pure (.rendered
                          [alreadyInLibraryItem (pyStr bookTitle)
                            (statusName sid)], calls0)
                else addFlow bid bookTitle calls0 st.add
            | Option.none => addFlow bid bookTitle calls0 st.add
  else
    pure (.hidden, [])

/-! ### Concrete values used in counterexamples and witnesses -/

/-- A 2xx generic-search body with zero hits. -/
def zeroHitsBody : PyVal :=
  .dict [("data", .dict [("search", .dict [("results",
    .dict [("hits", .list [])])])])]

/-- A lookup body whose `user_books` list is empty (book absent). -/
def absentBody : PyVal :=
  .dict [("data", .dict [("user_books", .list [])])]

/-- A response body carrying a GraphQL errors array. -/
def errorsBody : PyVal :=
  .dict [("errors", .list [.dict [("message", .str "boom")]])]

/-- Stubs: user-info empty, search returns zero hits, every library
lookup reports the book absent. -/
def stubZero : Stubs :=
  ⟨.resp 200 (.dict []), .resp 200 zeroHitsBody,
   fun _ _ => .resp 200 absentBody⟩

/-- An Envelope-A generic-search body whose `search.results` is a list
of JSON-encoded strings: one well-formed entry and one malformed
entry. -/
def envelopeABody : PyVal :=
  .dict [("data", .dict [("search", .dict [("results",
    .list [.str "\x7b\"title\": \"Dune\", \"slug\": \"dune\"\x7d",
           .str "not json"])])])]

/-- A body holding both a GraphQL errors array and usable search
data. -/
def errorsWithDataBody : PyVal :=
  .dict [("errors", .list [.dict [("message", .str "query rejected")]]),
         ("data", .dict [("search", .dict [("results", .dict [("hits",
           .list [.dict [("document",
             .dict [("title", .str "Dune")])]])])])])]

/-- A concrete search-hit document for a book. -/
def duneBook : PyVal :=
  .dict [("title", .str "Dune"), ("slug", .str "dune"), ("id", .int 42)]

/-- Lookup stub that always reports the book absent. -/
def absentStub : Int → Int → HttpResp := fun _ _ => .resp 200 absentBody

/-- The display item `create_book_item` produces for `duneBook` with
user id `7` and an absent-book lookup. -/
def duneItem : Item :=
  ⟨.str "Dune", "Book | Alt+Enter to add",
   .openUrl "https://hardcover.app/books/dune",
   Option.some ⟨"add_to_library", 42, .str "Dune", "7"⟩⟩

/-- The payload attached to `duneItem`. -/
def dunePayload : ActionPayload := ⟨"add_to_library", 42, .str "Dune", "7"⟩

/-- A lookup body whose single `user_books` entry carries the given
status id. -/
def entryBody (n : Int) : PyVal :=
  .dict [("data", .dict [("user_books",
    .list [.dict [("id", .int 99), ("status_id", .int n)]])])]

/-! ### Helper lemmas -/

theorem exceptBindOk {α β : Type} {e : Except PErr α}
    {k : α → Except PErr β} {r : β} (h : (e >>= k) = .ok r) :
    ∃ v, e = .ok v ∧ k v = .ok r := by
  cases e with
  | error e1 => exact Except.noConfusion h
  | ok v => exact ⟨v, rfl, h⟩

theorem bindOkEq {α β : Type} (a : α) (k : α → Except PErr β) :
    (Except.ok a >>= k) = k a := rfl

theorem bindErrEq {α β : Type} (e : PErr) (k : α → Except PErr β) :
    ((Except.error e : Except PErr α) >>= k) = .error e := rfl

theorem mapOkEq {α β : Type} (a : α) (f : α → β) :
    (Except.ok a : Except PErr α).map f = .ok (f a) := rfl

theorem mapErrEq {α β : Type} (e : PErr) (f : α → β) :
    (Except.error e : Except PErr α).map f = .error e := rfl

theorem purePEq {α : Type} (a : α) :
    (pure a : Except PErr α) = .ok a := rfl

theorem pyLookup_any {kvs : List (String × PyVal)} {k : String}
    {v : PyVal} (h : pyLookup kvs k = Option.some v) :
    kvs.any (fun kv => kv.1 = k) = true := by
  induction kvs with
  | nil => exact Option.noConfusion h
  | cons hd tl ih =>
      unfold pyLookup at h
      by_cases hk : hd.1 = k
      · simp [List.any, hk]
      · rw [if_neg hk] at h
        simp [List.any, ih h]

/-- Shape of a successful `create_book_item`: the item's name is the
title field, its primary action opens the book URL built from the slug
field, and its alternative action is attached exactly when a user id
is configured, the converted book id is truthy, and the library lookup
found nothing. -/
theorem createBookItem_ok {book : PyVal} {u : String}
    {stub : Int → Int → HttpResp} {item : Item} {calls : List NetCall}
    (h : createBookItem book u stub = .ok (item, calls)) :
    ∃ title slugV bid,
      pyGetD book ("title") (.str "Unknown Title") = .ok title ∧
      pyGetD book ("slug") (.str "") = .ok slugV ∧
      bookIdOf book = .ok bid ∧
      item.name = title ∧
      item.onEnter = .openUrl (baseUrl ++ "/books/" ++ pyStr slugV) ∧
      item.onAltEnter =
        (if u ≠ "" ∧
            ¬ (if u ≠ "" ∧ optIntTruthy bid then
                 libraryLookup u (bid.getD 0) stub
               else (Option.none, [])).1.isSome = true ∧
            optIntTruthy bid = true
         then Option.some ⟨"add_to_library", bid.getD 0, title, u⟩
         else Option.none) := by
  unfold createBookItem at h
  obtain ⟨title, ht, h⟩ := exceptBindOk h
  obtain ⟨slugV, hs, h⟩ := exceptBindOk h
  obtain ⟨bid, hb, h⟩ := exceptBindOk h
  obtain ⟨an, _, h⟩ := exceptBindOk h
  obtain ⟨as1, _, h⟩ := exceptBindOk h
  obtain ⟨ry, _, h⟩ := exceptBindOk h
  obtain ⟨rt, _, h⟩ := exceptBindOk h
  obtain ⟨uc, _, h⟩ := exceptBindOk h
  obtain ⟨rp, _, h⟩ := exceptBindOk h
  injection h with h2
  injection h2 with hi hc
  refine ⟨title, slugV, bid, ht, hs, hb, ?_, ?_, ?_⟩
  · rw [← hi]
  · rw [← hi]
  · rw [← hi]

/-- Shape of a successful `create_author_item`: no alternative action,
and the primary action opens the author URL built from the slug. -/
theorem createAuthorItem_ok {a : PyVal} {item : Item}
    (h : createAuthorItem a = .ok item) :
    ∃ slugV, pyGetD a ("slug") (.str "") = .ok slugV ∧
      item.onEnter = .openUrl (baseUrl ++ "/authors/" ++ pyStr slugV) ∧
      item.onAltEnter = Option.none := by
  unfold createAuthorItem at h
  obtain ⟨nm, _, h⟩ := exceptBindOk h
  obtain ⟨slugV, hs, h⟩ := exceptBindOk h
  obtain ⟨bc, _, h⟩ := exceptBindOk h
  obtain ⟨bk, _, h⟩ := exceptBindOk h
  obtain ⟨ds, _, h⟩ := exceptBindOk h
  injection h with hi
  exact ⟨slugV, hs, by rw [← hi], by rw [← hi]⟩

/-- Shape of a successful `create_series_item`. -/
theorem createSeriesItem_ok {sv : PyVal} {item : Item}
    (h : createSeriesItem sv = .ok item) :
    ∃ slugV, pyGetD sv ("slug") (.str "") = .ok slugV ∧
      item.onEnter = .openUrl (baseUrl ++ "/series/" ++ pyStr slugV) ∧
      item.onAltEnter = Option.none := by
  unfold createSeriesItem at h
  obtain ⟨nm, _, h⟩ := exceptBindOk h
  obtain ⟨slugV, hs, h⟩ := exceptBindOk h
  obtain ⟨an, _, h⟩ := exceptBindOk h
  obtain ⟨bc, _, h⟩ := exceptBindOk h
  injection h with hi
  exact ⟨slugV, hs, by rw [← hi], by rw [← hi]⟩

/-- Shape of a successful `create_list_item`. -/
theorem createListItem_ok {lv : PyVal} {item : Item}
    (h : createListItem lv = .ok item) :
    ∃ slugV, pyGetD lv ("slug") (.str "") = .ok slugV ∧
      item.onEnter = .openUrl (baseUrl ++ "/lists/" ++ pyStr slugV) ∧
      item.onAltEnter = Option.none := by
  unfold createListItem at h
  obtain ⟨nm, _, h⟩ := exceptBindOk h
  obtain ⟨slugV, hs, h⟩ := exceptBindOk h
  obtain ⟨bc, _, h⟩ := exceptBindOk h
  obtain ⟨us, _, h⟩ := exceptBindOk h
  obtain ⟨un, _, h⟩ := exceptBindOk h
  injection h with hi
  exact ⟨slugV, hs, by rw [← hi], by rw [← hi]⟩

/-- Every result of `add_book_to_library`'s body handling is a dict
whose first binding is the success flag. -/
theorem addBookBody_ok_shape {b v : PyVal} (h : addBookBody b = .ok v) :
    ∃ flag rest, v = .dict (("success", .bool flag) :: rest) := by
  unfold addBookBody at h
  obtain ⟨he, _, h⟩ := exceptBindOk h
  by_cases hb : he = true
  · rw [if_pos hb] at h
    obtain ⟨errs, _, h⟩ := exceptBindOk h
    injection h with hi
    exact ⟨false, _, hi.symm⟩
  · rw [if_neg hb] at h
    obtain ⟨d, _, h⟩ := exceptBindOk h
    obtain ⟨res, _, h⟩ := exceptBindOk h
    by_cases ht : truthy res = true
    · rw [if_pos ht] at h
      injection h with hi
      exact ⟨true, _, hi.symm⟩
    · rw [if_neg ht] at h
      injection h with hi
      exact ⟨false, _, hi.symm⟩

/-- `add_book_to_library` always returns a dict whose first binding is
the success flag. -/
theorem addBook_shape (r : HttpResp) :
    ∃ flag rest, addBook r = .dict (("success", .bool flag) :: rest) := by
  cases r with
  | netError m => exact ⟨false, _, rfl⟩
  | resp s body =>
      simp only [addBook]
      by_cases hs : s ≠ 200
      · rw [if_pos hs]
        exact ⟨false, _, rfl⟩
      · rw [if_neg hs]
        cases hab : addBookBody body with
        | ok v =>
            obtain ⟨flag, rest, hv⟩ := addBookBody_ok_shape hab
            exact ⟨flag, rest, hv⟩
        | error e => exact ⟨false, _, rfl⟩

/-- The add-book tail of the item-enter handler always succeeds and
always records the insert mutation with status id 1. -/
theorem addFlow_ok (bid : Int) (bookTitle : PyVal) (calls0 : List NetCall)
    (add : HttpResp) :
    ∃ out, addFlow bid bookTitle calls0 add = .ok out ∧
      out.2 = calls0 ++ [NetCall.insert bid 1] := by
  obtain ⟨flag, rest, hshape⟩ := addBook_shape add
  unfold addFlow
  rw [hshape]
  cases flag
  · exact ⟨_, rfl, rfl⟩
  · exact ⟨_, rfl, rfl⟩

/-- `search` discards the whole batch when the body carries a GraphQL
errors field. -/
theorem mainSearch_errors {kvs : List (String × PyVal)} {v : PyVal}
    (h : pyLookup kvs ("errors") = Option.some v) :
    mainSearch (.resp 200 (.dict kvs)) = [] := by
  have hin : pyIn ("errors") (.dict kvs) = .ok true := by
    simp [pyIn, pyLookup_any h]
  have hsb : searchBody (.dict kvs) = .ok [] := by
    unfold searchBody
    rw [hin, bindOkEq]
    rfl
  simp only [mainSearch]
  rw [if_neg (by omega), hsb]

/-! ### Claims -/

/-- C1 counterexample: for an Envelope-A response whose
`search.results` is a list of JSON-encoded strings (one well-formed,
one malformed), `search` does not return exactly one record — it
returns the empty list, because the code reads `results.get("hits")`
and a list has no `get`, so the raised `AttributeError` drops the
whole batch. -/
theorem c1_counterexample :
    mainSearch (.resp 200 envelopeABody) = [] ∧
    (mainSearch (.resp 200 envelopeABody)).length ≠ 1 :=
  ⟨rfl, fun hlen => Nat.noConfusion hlen⟩

/-- C1 amended: the generic-search normalizer expects
`search.results` to be an object containing `hits`; each hit's
`document` is extracted independently and a hit without a document is
skipped without aborting the rest, while a `search.results` that is a
list of JSON-encoded strings drops the whole batch (the result is
`[]`). -/
theorem c1_amended (doc : PyVal) (k2 : List (String × PyVal))
    (hdoc : truthy doc = true)
    (hk2 : pyLookup k2 ("document") = Option.none) :
    mainSearch (.resp 200 (.dict [("data", .dict [("search", .dict
        [("results", .dict [("hits", .list
          [.dict [("document", doc)], .dict k2])])])])])) = [doc] ∧
    (∀ strs : List String,
      mainSearch (.resp 200 (.dict [("data", .dict [("search", .dict
        [("results", .list (strs.map PyVal.str))])])])) = []) := by
  constructor
  · have hsb : searchBody (.dict [("data", .dict [("search", .dict
        [("results", .dict [("hits", .list
          [.dict [("document", doc)], .dict k2])])])])]) = .ok [doc] := by
      simp +decide [searchBody, extractDocs, pyIn, pyGetD, pyLookup,
        pyIter, bindOkEq, purePEq, hk2, hdoc]
    simp only [mainSearch]
    rw [if_neg (by omega), hsb]
  · intro strs
    have hsb : searchBody (.dict [("data", .dict [("search", .dict
        [("results", .list (strs.map PyVal.str))])])]) =
        .error .attributeError := rfl
    simp only [mainSearch]
    rw [if_neg (by omega), hsb]

/-- C1 witness: a concrete hits-shaped response with one good document
and one document-less hit normalizes to exactly that document. -/
theorem c1_witness :
    mainSearch (.resp 200 (.dict [("data", .dict [("search", .dict
        [("results", .dict [("hits", .list
          [.dict [("document", duneBook)],
           .dict [("x", .none)]])])])])])) = [duneBook] ∧
    mainSearch (.resp 200 (.dict [("data", .dict [("search", .dict
        [("results", .list (["a", "b"].map PyVal.str))])])])) = [] :=
  ⟨(c1_amended duneBook [("x", .none)] rfl rfl).1,
   (c1_amended duneBook [("x", .none)] rfl rfl).2 ["a", "b"]⟩

/-- C2 counterexample: no single constructor normalizes all three
token inputs to `abc123` — `main.py`'s constructor leaves
`Bearer abc123` untouched (so the header becomes
`Bearer Bearer abc123`), and `api.py`'s constructor leaves the
surrounding quotes of `"abc123"`. -/
theorem c2_counterexample :
    mainSanitize "Bearer abc123" = "Bearer abc123" ∧
    mainAuthHeader "Bearer abc123" = Option.some "Bearer Bearer abc123" ∧
    apiSanitize "\"abc123\"" = "\"abc123\"" ∧
    apiAuthHeader "\"abc123\"" = "Bearer \"abc123\"" ∧
    ("Bearer abc123" : String) ≠ "abc123" ∧
    ("\"abc123\"" : String) ≠ "abc123" :=
  ⟨rfl, rfl, rfl, rfl, by decide, by decide⟩

/-- C2 amended: `main.py`'s constructor normalizes the quoted and the
whitespace-padded token to `abc123` (Authorization `Bearer abc123`)
but leaves a `Bearer `-prefixed input as is; `api.py`'s constructor
normalizes the `Bearer `-prefixed and the whitespace-padded token but
leaves surrounding quotes in place. -/
theorem c2_amended :
    mainSanitize "\"abc123\"" = "abc123" ∧
    mainSanitize " abc123 " = "abc123" ∧
    mainAuthHeader "\"abc123\"" = Option.some "Bearer abc123" ∧
    mainAuthHeader " abc123 " = Option.some "Bearer abc123" ∧
    mainSanitize "Bearer abc123" = "Bearer abc123" ∧
    apiSanitize "Bearer abc123" = "abc123" ∧
    apiSanitize " abc123 " = "abc123" ∧
    apiAuthHeader "Bearer abc123" = "Bearer abc123" ∧
    apiAuthHeader " abc123 " = "Bearer abc123" ∧
    apiSanitize "\"abc123\"" = "\"abc123\"" :=
  ⟨rfl, rfl, rfl, rfl, rfl, rfl, rfl, rfl, rfl, rfl⟩

/-- C3 counterexample: in `main.py`'s `search`, a 200 body carrying
both a GraphQL errors array and usable data yields `[]` — the same
value as a transport error — so the failure is not surfaced as a
distinct error carrying the first error message. -/
theorem c3_counterexample :
    mainSearch (.resp 200 errorsWithDataBody) = [] ∧
    mainSearch (.resp 200 errorsWithDataBody) =
      mainSearch (.resp 503 (.dict [])) :=
  ⟨rfl, rfl⟩

/-- C3 amended: a response body containing an errors field
short-circuits normalization and any data alongside is discarded; in
`api.py`'s `_run_query` the failure is raised as an exception carrying
the first error message, distinct from the HTTP-status and
connection errors of the transport, while `main.py`'s `search` maps it
to the empty list, indistinguishable from a transport error. -/
theorem c3_amended (kvs ekvs : List (String × PyVal)) (tail : List PyVal)
    (msg : PyVal)
    (herr : pyLookup kvs ("errors") =
      Option.some (.list (.dict ekvs :: tail)))
    (hmsg : pyLookup ekvs ("message") = Option.some msg) :
    mainSearch (.resp 200 (.dict kvs)) = [] ∧
    apiRunQuery (.resp 200 (.dict kvs)) = .error (.appError msg) ∧
    (∀ s b, 400 ≤ s → s < 600 →
      apiRunQuery (.resp s b) = .error (.httpError s)) ∧
    (∀ m, apiRunQuery (.netError m) = .error (.connectionError m)) := by
  refine ⟨mainSearch_errors herr, ?_, ?_, fun m => rfl⟩
  · have hin : pyIn ("errors") (.dict kvs) = .ok true := by
      simp [pyIn, pyLookup_any herr]
    have h1 : pySubscript (.dict kvs) ("errors") =
        .ok (.list (.dict ekvs :: tail)) := by
      simp [pySubscript, herr]
    have h2 : pySubscript (.dict ekvs) ("message") = .ok msg := by
      simp [pySubscript, hmsg]
    simp only [apiRunQuery]
    rw [if_neg (by omega)]
    simp [hin, h1, h2, bindOkEq, pyIndex]
  · intro s b hs1 hs2
    simp only [apiRunQuery]
    rw [if_pos ⟨hs1, hs2⟩]

/-- C3 witness: concrete errors body with data alongside. -/
theorem c3_witness :
    mainSearch (.resp 200 (.dict [("errors", .list
        [.dict [("message", .str "boom")]]), ("data", .dict [])])) = [] ∧
    apiRunQuery (.resp 200 (.dict [("errors", .list
        [.dict [("message", .str "boom")]]), ("data", .dict [])])) =
      .error (.appError (.str "boom")) ∧
    apiRunQuery (.resp 500 (.dict [])) = .error (.httpError 500) :=
  ⟨(c3_amended [("errors", .list [.dict [("message", .str "boom")]]),
      ("data", .dict [])] [("message", .str "boom")] [] (.str "boom")
      rfl rfl).1,
   (c3_amended [("errors", .list [.dict [("message", .str "boom")]]),
      ("data", .dict [])] [("message", .str "boom")] [] (.str "boom")
      rfl rfl).2.1,
   (c3_amended [("errors", .list [.dict [("message", .str "boom")]]),
      ("data", .dict [])] [("message", .str "boom")] [] (.str "boom")
      rfl rfl).2.2.1 500 (.dict []) (by omega) (by omega)⟩

/-- C4: the keyword listener pre-filters only the empty query; a
whitespace-only query passes the `if not query` guard, then
`query.split(None, 1)` is empty and `parts[0]` raises an uncaught
`IndexError` instead of returning display items — the code violates
the documented requirement that empty and whitespace-only queries be
pre-filtered without uncaught faults. -/
theorem c4_whitespace_query_crash (st : Stubs) :
    onEvent " " ⟨"tok", "", "10"⟩ st = .error .indexError ∧
    onEvent "" ⟨"tok", "", "10"⟩ st = .ok (helpItems "", []) :=
  ⟨rfl, rfl⟩

/-- C5: a secondary (Alt-Enter) action is attached only on book
items, only when a user id is configured, the converted book id is
truthy and the library lookup found nothing; the attached payload's
action is `add_to_library` with the book id, title and user id;
author, series and list items never carry one; and every insert
mutation the item-enter handler issues has status id 1 (Want to
Read). -/
theorem c5_secondary_action :
    (∀ book u stub item calls,
        createBookItem book u stub = .ok (item, calls) →
        ∀ pl, item.onAltEnter = Option.some pl →
          u ≠ "" ∧
          (∃ bid, bookIdOf book = .ok (Option.some bid) ∧ bid ≠ 0 ∧
            (libraryLookup u bid stub).1 = Option.none ∧
            pl = ⟨"add_to_library", bid, item.name, u⟩) ∧
          pl.action = "add_to_library") ∧
    (∀ a item, createAuthorItem a = .ok item →
        item.onAltEnter = Option.none) ∧
    (∀ sv item, createSeriesItem sv = .ok item →
        item.onAltEnter = Option.none) ∧
    (∀ lv item, createListItem lv = .ok item →
        item.onAltEnter = Option.none) ∧
    (∀ data st out, itemEnter data st = .ok out →
        ∀ bid sid, NetCall.insert bid sid ∈ out.2 → sid = 1) := by
  refine ⟨?_, ?_, ?_, ?_, ?_⟩
  · intro book u stub item calls h pl hpl
    obtain ⟨title, slugV, bid0, ht, hs, hb, hname, _, halt⟩ :=
      createBookItem_ok h
    rw [halt] at hpl
    by_cases hc : (u ≠ "" ∧
        ¬ (if u ≠ "" ∧ optIntTruthy bid0 = true then
             libraryLookup u (bid0.getD 0) stub
           else (Option.none, [])).1.isSome = true ∧
        optIntTruthy bid0 = true)
    · rw [if_pos hc] at hpl
      obtain ⟨hu, hlib, hbt⟩ := hc
      cases bid0 with
      | none => exact absurd hbt (by simp [optIntTruthy])
      | some b =>
          have hb0 : b ≠ 0 := by
            intro h0
            rw [h0] at hbt
            exact absurd hbt (by simp [optIntTruthy])
          rw [if_pos ⟨hu, hbt⟩] at hlib
          have hnone : (libraryLookup u b stub).1 = Option.none := by
            have : ¬ (libraryLookup u b stub).1.isSome = true := hlib
            simpa [Option.not_isSome_iff_eq_none] using this
          refine ⟨hu, ⟨b, hb, hb0, hnone, ?_⟩, ?_⟩
          · rw [hname]
            injection hpl with hpl2
            exact hpl2.symm
          · injection hpl with hpl2
            rw [← hpl2]
    · rw [if_neg hc] at hpl
      exact Option.noConfusion hpl
  · intro a item h
    obtain ⟨slugV, _, _, halt⟩ := createAuthorItem_ok h
    exact halt
  · intro sv item h
    obtain ⟨slugV, _, _, halt⟩ := createSeriesItem_ok h
    exact halt
  · intro lv item h
    obtain ⟨slugV, _, _, halt⟩ := createListItem_ok h
    exact halt
  · intro data st out h bid sid hmem
    unfold itemEnter at h
    obtain ⟨action, _, h⟩ := exceptBindOk h
    by_cases ha : strEqB action ("add_to_library") = true
    · rw [if_pos ha] at h
      obtain ⟨b0, _, h⟩ := exceptBindOk h
      obtain ⟨bt, _, h⟩ := exceptBindOk h
      obtain ⟨u0, _, h⟩ := exceptBindOk h
      cases hbi : pyToInt b0 with
      | error e =>
          simp only [hbi] at h
          injection h with h2
          rw [← h2] at hmem
          simp at hmem
      | ok bid2 =>
          cases hui : pyToInt u0 with
          | error e =>
              simp only [hbi, hui] at h
              injection h with h2
              rw [← h2] at hmem
              simp at hmem
          | ok uid2 =>
              cases hex : checkBookInLibrary st.lookup with
              | none =>
                  simp only [hbi, hui, hex] at h
                  obtain ⟨out2, hout, hcalls⟩ :=
                    addFlow_ok bid2 bt [NetCall.lookup uid2 bid2] st.add
                  rw [hout] at h
                  injection h with h2
                  rw [← h2, hcalls] at hmem
                  simp at hmem
                  rcases hmem with ⟨_, h1⟩
                  exact h1
              | some v =>
                  by_cases htv : truthy v = true
                  · simp only [hbi, hui, hex, htv, if_true] at h
                    obtain ⟨sid2, _, h⟩ := exceptBindOk h
                    injection h with h2
                    rw [← h2] at hmem
                    simp at hmem
                  · simp only [hbi, hui, hex, htv, if_false,
                      Bool.false_eq_true] at h
                    obtain ⟨out2, hout, hcalls⟩ :=
                      addFlow_ok bid2 bt [NetCall.lookup uid2 bid2] st.add
                    rw [hout] at h
                    injection h with h2
                    rw [← h2, hcalls] at hmem
                    simp at hmem
                    rcases hmem with ⟨_, h1⟩
                    exact h1
    · rw [if_neg ha] at h
      injection h with h2
      rw [← h2] at hmem
      simp at hmem

/-- C6 counterexample: for the zero-hit query `author Tolkien` the
single no-results item references the prefix-stripped search query
`Tolkien`, and its text does not contain the original query text
`author Tolkien`. -/
theorem c6_counterexample :
    onEvent "author Tolkien" ⟨"tok", "", "10"⟩ stubZero =
      .ok ([noResultsItem "Tolkien"],
           [NetCall.search "Tolkien" "Author" 10]) ∧
    containsStr (noResultsItem "Tolkien").description
      "author Tolkien" = false :=
  ⟨rfl, rfl⟩

/-- C6 amended: for every non-blank, non-special query whose 2xx
search response normalizes to zero records, the handler yields exactly
one no-results item, and that item's text references the effective
search query — the original query with any recognized kind prefix
removed, which equals the original query for plain book searches. -/
theorem c6_amended (query : String) (p : Prefs) (st : Stubs)
    (cmd : String) (rest : List String) (qt sq : String)
    (htok : ¬ (p.apiToken = "" ∨ pythonStrip p.apiToken = ""))
    (hme : ¬ (pyLower query = "me" ∨ pyLower query = "whoami"))
    (hsplit : splitNone1 query = cmd :: rest)
    (hpc : parseCommand query cmd rest = (qt, sq))
    (hzero : mainSearch st.search = []) :
    onEvent query p st =
      .ok ([noResultsItem sq],
           [NetCall.search sq qt ((pyIntOpt p.resultsLimit).getD 10)]) := by
  have hq : query ≠ "" := by
    intro hq0
    rw [hq0] at hsplit
    exact List.noConfusion hsplit
  unfold onEvent
  rw [if_neg htok, if_neg hme, if_neg hq, hsplit]
  simp only [hpc, hzero]
  rfl

/-- C6 witness: a plain zero-hit book query yields one no-results
item naming the query itself. -/
theorem c6_witness :
    onEvent "dune" ⟨"tok", "", "10"⟩ stubZero =
      .ok ([noResultsItem "dune"], [NetCall.search "dune" "Book" 10]) :=
  c6_amended "dune" ⟨"tok", "", "10"⟩ stubZero "dune" [] "Book" "dune"
    (by decide) (by decide) rfl rfl rfl

/-- C7: whenever the configured API token is missing, empty or
whitespace-only, the keyword listener returns exactly one explanatory
item and makes no network call. -/
theorem c7_missing_token (query : String) (p : Prefs) (st : Stubs)
    (h : p.apiToken = "" ∨ pythonStrip p.apiToken = "") :
    onEvent query p st = .ok ([apiTokenRequiredItem], []) := by
  unfold onEvent
  rw [if_pos h]
  rfl

/-- C7 witness: a whitespace-only token yields the single explanatory
item and an empty call trace. -/
theorem c7_witness :
    onEvent "dune" ⟨"   ", "7", "10"⟩ stubZero =
      .ok ([apiTokenRequiredItem], []) :=
  c7_missing_token "dune" ⟨"   ", "7", "10"⟩ stubZero (Or.inr rfl)

/-- C8: a library entry whose status id lies outside 1..6 is not
rejected — the already-in-library item is still produced and shows the
status as `Unknown`. -/
theorem c8_unknown_status (n bid uid : Int) (title : String)
    (add : HttpResp) (hn : n < 1 ∨ 6 < n) :
    itemEnter (.dict [("action", .str "add_to_library"),
        ("book_id", .int bid), ("book_title", .str title),
        ("user_id", .int uid)])
      ⟨.resp 200 (entryBody n), add⟩ =
      .ok (.rendered [alreadyInLibraryItem title "Unknown"],
           [NetCall.lookup uid bid]) ∧
    statusName (.int n) = "Unknown" := by
  have hsn : statusName (.int n) = "Unknown" := by
    simp only [statusName]
    rw [if_neg (by omega), if_neg (by omega), if_neg (by omega),
        if_neg (by omega), if_neg (by omega), if_neg (by omega)]
  refine ⟨?_, hsn⟩
  rw [← hsn]
  rfl

/-- C8 witness: status id 9 renders the already-in-library item with
status `Unknown`. -/
theorem c8_witness :
    itemEnter (.dict [("action", .str "add_to_library"),
        ("book_id", .int 42), ("book_title", .str "Dune"),
        ("user_id", .int 7)])
      ⟨.resp 200 (entryBody 9), .resp 200 (.dict [])⟩ =
      .ok (.rendered [alreadyInLibraryItem "Dune" "Unknown"],
           [NetCall.lookup 7 42]) ∧
    statusName (.int 9) = "Unknown" :=
  c8_unknown_status 9 42 7 "Dune" (.resp 200 (.dict []))
    (Or.inr (by omega))

/-- C5 witness: a concrete book absent from the library with user id
7 carries the add payload; concrete author, series and list items
carry no alternative action; and a concretely issued insert has status
id 1. -/
theorem c5_witness :
    (("7" : String) ≠ "" ∧
      (∃ bid, bookIdOf duneBook = .ok (Option.some bid) ∧ bid ≠ 0 ∧
        (libraryLookup "7" bid absentStub).1 = Option.none ∧
        dunePayload = ⟨"add_to_library", bid, duneItem.name, "7"⟩) ∧
      dunePayload.action = "add_to_library") ∧
    (Item.mk (.str "Ann") "📚 0 books"
      (.openUrl "https://hardcover.app/authors/ann")
      Option.none).onAltEnter = Option.none ∧
    (Item.mk (.str "Dune Saga") "Series"
      (.openUrl "https://hardcover.app/series/dune-saga")
      Option.none).onAltEnter = Option.none ∧
    (Item.mk (.str "Best") "By @Unknown"
      (.openUrl "https://hardcover.app/lists/best")
      Option.none).onAltEnter = Option.none ∧
    (1 : Int) = 1 :=
  ⟨c5_secondary_action.1 duneBook "7" absentStub duneItem
      [NetCall.lookup 7 42] rfl dunePayload rfl,
   c5_secondary_action.2.1 (.dict [("name", .str "Ann"),
      ("slug", .str "ann")])
      ⟨.str "Ann", "📚 0 books",
       .openUrl "https://hardcover.app/authors/ann", Option.none⟩ rfl,
   c5_secondary_action.2.2.1 (.dict [("name", .str "Dune Saga"),
      ("slug", .str "dune-saga")])
      ⟨.str "Dune Saga", "Series",
       .openUrl "https://hardcover.app/series/dune-saga", Option.none⟩ rfl,
   c5_secondary_action.2.2.2.1 (.dict [("name", .str "Best"),
      ("slug", .str "best")])
      ⟨.str "Best", "By @Unknown",
       .openUrl "https://hardcover.app/lists/best", Option.none⟩ rfl,
   c5_secondary_action.2.2.2.2 dunePayload.toPy
      ⟨.resp 200 absentBody, .resp 200 (.dict [])⟩
      (.rendered [addFailedItem "No data returned"],
       [NetCall.lookup 7 42, NetCall.insert 42 1]) rfl 42 1 (by decide)⟩

/-- C9: for every record of every entity kind that renders to an
item, the primary action opens
`https://hardcover.app/{books|authors|series|lists}/{slug}` built from
the record's slug field. -/
theorem c9_primary_url :
    (∀ book u stub item calls,
        createBookItem book u stub = .ok (item, calls) →
        ∃ slugV, pyGetD book ("slug") (.str "") = .ok slugV ∧
          item.onEnter =
            .openUrl ("https://hardcover.app/books/" ++ pyStr slugV)) ∧
    (∀ a item, createAuthorItem a = .ok item →
        ∃ slugV, pyGetD a ("slug") (.str "") = .ok slugV ∧
          item.onEnter =
            .openUrl ("https://hardcover.app/authors/" ++ pyStr slugV)) ∧
    (∀ sv item, createSeriesItem sv = .ok item →
        ∃ slugV, pyGetD sv ("slug") (.str "") = .ok slugV ∧
          item.onEnter =
            .openUrl ("https://hardcover.app/series/" ++ pyStr slugV)) ∧
    (∀ lv item, createListItem lv = .ok item →
        ∃ slugV, pyGetD lv ("slug") (.str "") = .ok slugV ∧
          item.onEnter =
            .openUrl ("https://hardcover.app/lists/" ++ pyStr slugV)) := by
  refine ⟨?_, ?_, ?_, ?_⟩
  · intro book u stub item calls h
    obtain ⟨t, slugV, bid, _, hs, _, _, hurl, _⟩ := createBookItem_ok h
    exact ⟨slugV, hs, by
      rw [hurl, show baseUrl ++ ("/books/") =
        "https://hardcover.app/books/" from by decide]⟩
  · intro a item h
    obtain ⟨slugV, hs, hurl, _⟩ := createAuthorItem_ok h
    exact ⟨slugV, hs, by
      rw [hurl, show baseUrl ++ ("/authors/") =
        "https://hardcover.app/authors/" from by decide]⟩
  · intro sv item h
    obtain ⟨slugV, hs, hurl, _⟩ := createSeriesItem_ok h
    exact ⟨slugV, hs, by
      rw [hurl, show baseUrl ++ ("/series/") =
        "https://hardcover.app/series/" from by decide]⟩
  · intro lv item h
    obtain ⟨slugV, hs, hurl, _⟩ := createListItem_ok h
    exact ⟨slugV, hs, by
      rw [hurl, show baseUrl ++ ("/lists/") =
        "https://hardcover.app/lists/" from by decide]⟩

/-- C9 witness: concrete records of all four kinds produce the
expected URLs. -/
theorem c9_witness :
    (∃ slugV, pyGetD duneBook ("slug") (.str "") = .ok slugV ∧
      (Item.mk (.str "Dune") "Book"
        (.openUrl "https://hardcover.app/books/dune")
        Option.none).onEnter =
        .openUrl ("https://hardcover.app/books/" ++ pyStr slugV)) ∧
    (∃ slugV, pyGetD (.dict [("name", .str "Ann"), ("slug", .str "ann")])
        ("slug") (.str "") = .ok slugV ∧
      (Item.mk (.str "Ann") "📚 0 books"
        (.openUrl "https://hardcover.app/authors/ann")
        Option.none).onEnter =
        .openUrl ("https://hardcover.app/authors/" ++ pyStr slugV)) ∧
    (∃ slugV, pyGetD (.dict [("name", .str "Dune Saga"),
        ("slug", .str "dune-saga")]) ("slug") (.str "") = .ok slugV ∧
      (Item.mk (.str "Dune Saga") "Series"
        (.openUrl "https://hardcover.app/series/dune-saga")
        Option.none).onEnter =
        .openUrl ("https://hardcover.app/series/" ++ pyStr slugV)) ∧
    (∃ slugV, pyGetD (.dict [("name", .str "Best"), ("slug", .str "best")])
        ("slug") (.str "") = .ok slugV ∧
      (Item.mk (.str "Best") "By @Unknown"
        (.openUrl "https://hardcover.app/lists/best")
        Option.none).onEnter =
        .openUrl ("https://hardcover.app/lists/" ++ pyStr slugV)) :=
  ⟨c9_primary_url.1 duneBook "" absentStub
      ⟨.str "Dune", "Book",
       .openUrl "https://hardcover.app/books/dune", Option.none⟩ [] rfl,
   c9_primary_url.2.1 (.dict [("name", .str "Ann"), ("slug", .str "ann")])
      ⟨.str "Ann", "📚 0 books",
       .openUrl "https://hardcover.app/authors/ann", Option.none⟩ rfl,
   c9_primary_url.2.2.1 (.dict [("name", .str "Dune Saga"),
      ("slug", .str "dune-saga")])
      ⟨.str "Dune Saga", "Series",
       .openUrl "https://hardcover.app/series/dune-saga", Option.none⟩ rfl,
   c9_primary_url.2.2.2 (.dict [("name", .str "Best"),
      ("slug", .str "best")])
      ⟨.str "Best", "By @Unknown",
       .openUrl "https://hardcover.app/lists/best", Option.none⟩ rfl⟩

/-- C10: the library lookup returns the same `None` for a book that
is absent as for every failure mode (connection error, non-2xx
status, GraphQL errors), and downstream a `None` lookup still attaches
the add action to the book item and the add flow still issues the
insert mutation. -/
theorem c10_lookup_failure_is_absent :
    (∀ m, checkBookInLibrary (.netError m) = Option.none) ∧
    (∀ s b, s ≠ 200 → checkBookInLibrary (.resp s b) = Option.none) ∧
    (∀ kvs v, pyLookup kvs ("errors") = Option.some v →
        checkBookInLibrary (.resp 200 (.dict kvs)) = Option.none) ∧
    checkBookInLibrary (.resp 200 absentBody) = Option.none ∧
    (∀ book u stub item calls bid,
        createBookItem book u stub = .ok (item, calls) →
        u ≠ "" → bookIdOf book = .ok (Option.some bid) → bid ≠ 0 →
        (libraryLookup u bid stub).1 = Option.none →
        ∃ pl, item.onAltEnter = Option.some pl ∧
          pl.action = "add_to_library" ∧ pl.bookId = bid) ∧
    (∀ pl : ActionPayload, ∀ st : EnterStubs, ∀ uid : Int,
        pl.action = "add_to_library" →
        pyIntOpt pl.userId = Option.some uid →
        checkBookInLibrary st.lookup = Option.none →
        ∃ out, itemEnter pl.toPy st = .ok out ∧
          NetCall.insert pl.bookId 1 ∈ out.2) := by
  refine ⟨fun m => rfl, ?_, ?_, rfl, ?_, ?_⟩
  · intro s b hs
    simp only [checkBookInLibrary]
    rw [if_pos hs]
  · intro kvs v h
    have hin : pyIn ("errors") (.dict kvs) = .ok true := by
      simp [pyIn, pyLookup_any h]
    have hcb : checkBookBody (.dict kvs) = .ok Option.none := by
      unfold checkBookBody
      rw [hin, bindOkEq]
      rfl
    simp only [checkBookInLibrary]
    rw [if_neg (by omega), hcb]
  · intro book u stub item calls bid h hu hb hb0 hlk
    obtain ⟨title, slugV, bid0, _, _, hb2, hname, _, halt⟩ :=
      createBookItem_ok h
    have hbid0 : bid0 = Option.some bid := by
      have := hb2.symm.trans hb
      injection this
    subst hbid0
    have hopt : optIntTruthy (Option.some bid) = true := by
      simp [optIntTruthy, hb0]
    have hcond : u ≠ "" ∧
        ¬ (if u ≠ "" ∧ optIntTruthy (Option.some bid) = true then
             libraryLookup u ((Option.some bid).getD 0) stub
           else (Option.none, [])).1.isSome = true ∧
        optIntTruthy (Option.some bid) = true := by
      refine ⟨hu, ?_, hopt⟩
      rw [if_pos ⟨hu, hopt⟩]
      simp only [Option.getD_some]
      rw [hlk]
      simp
    rw [if_pos hcond] at halt
    exact ⟨_, halt, rfl, rfl⟩
  · intro pl st uid ha hu hlk
    obtain ⟨out2, hout, hcalls⟩ :=
      addFlow_ok pl.bookId pl.bookTitle
        [NetCall.lookup uid pl.bookId] st.add
    refine ⟨out2, ?_, by rw [hcalls]; simp⟩
    unfold itemEnter
    simp +decide [ActionPayload.toPy, pyGetD, pyLookup, pyToInt,
      bindOkEq, ha, hu, hlk]
    exact hout

/-- C10 witness: concrete failing lookups evaluate to `None`, the
book item still carries the add payload, and the add flow issues the
insert mutation after a failing lookup. -/
theorem c10_witness :
    checkBookInLibrary (.resp 200 (.dict [("errors",
      .list [.dict [("message", .str "boom")]])])) = Option.none ∧
    checkBookInLibrary (.resp 500 (.dict [])) = Option.none ∧
    (∃ pl, duneItem.onAltEnter = Option.some pl ∧
      pl.action = "add_to_library" ∧ pl.bookId = 42) ∧
    (∃ out, itemEnter dunePayload.toPy
        ⟨.resp 200 errorsBody, .resp 200 (.dict [])⟩ = .ok out ∧
      NetCall.insert 42 1 ∈ out.2) :=
  ⟨c10_lookup_failure_is_absent.2.2.1 [("errors",
      .list [.dict [("message", .str "boom")]])]
      (.list [.dict [("message", .str "boom")]]) rfl,
   c10_lookup_failure_is_absent.2.1 500 (.dict []) (by decide),
   c10_lookup_failure_is_absent.2.2.2.2.1 duneBook "7" absentStub
      duneItem [NetCall.lookup 7 42] 42 rfl (by decide) rfl
      (by decide) rfl,
   c10_lookup_failure_is_absent.2.2.2.2.2 dunePayload
      ⟨.resp 200 errorsBody, .resp 200 (.dict [])⟩ 7 rfl rfl rfl⟩

end Hardcover
